import Mathlib

/-!
Shallow embedding of the `processor_engine` repository (Rust) in Lean 4:
the interface abstraction layer (`src/interfaces.rs`), the receiver
multiplexer's consolidation loop (`src/processor_base/processing.rs`) and
the two-phase parameter model (`src/processor_base/parameter.rs`),
together with theorems settling the specification's claims about them.

Modelling conventions:
- Rust `Result<T, String>` becomes `Except String T`.
- Calls into the operating system (file open/create, `read`, `write_all`,
  `sync_all`, socket `bind`, `recv_from`, `send_to`, multicast join/leave,
  address parsing) are modelled as explicit oracle arguments carrying the
  outcome of the call; the embedded operation consumes the oracle exactly
  where the Rust code performs the call, so dependence (or not) of the
  result on the oracle mirrors whether the transport resource is used.
- The external logging collaborator invoked by `BaseInterface::set_error`
  is a side effect outside the embedded state and is not modelled.
- `usize as u32` casts are modelled by `% 4294967296`.
-/

set_option autoImplicit false
set_option linter.unusedVariables false

namespace ProcessorEngine

/-- `PhysInterface` from `src/interfaces.rs`. -/
inductive PhysInterface where
  | None | Serial | Ethernet | I2C | SPI | CAN | RS232 | RS485
  deriving DecidableEq

/-- `LogicalInterface` from `src/interfaces.rs`. -/
inductive LogicalInterface where
  | File | Socket | Pipe | SharedMemory | MessageQueue | Signal
  deriving DecidableEq

/-- `InterfaceType` from `src/interfaces.rs`. -/
structure InterfaceType where
  phys : PhysInterface
  logic : LogicalInterface
  deriving DecidableEq

/-- `InterfaceStatus` from `src/interfaces.rs`. -/
inductive InterfaceStatus where
  | Connected | Disconnected | Error
  deriving DecidableEq

/-- `InterfaceMode` from `src/interfaces.rs`. -/
inductive InterfaceMode where
  | Read | Write | ReadWrite
  deriving DecidableEq

/-- `InterfaceProtocol` from `src/interfaces.rs`. -/
inductive InterfaceProtocol where
  | Raw | TcpIp | UdpIp | CANopen | EtherCAT
  deriving DecidableEq

/-- `InterfaceError` from `src/interfaces.rs`. -/
inductive InterfaceError where
  | Timeout | Overflow | Underflow | FramingError | ParityError
  | ChecksumError | ProtocolError | WriteOnReadOnly | ReadOnWriteOnly
  | NotOpenIFace | AlreadyOpenIFace | NotValidSocketAddr | GenericError
  deriving DecidableEq

/-- `impl ToString for InterfaceError` from `src/interfaces.rs`. -/
def InterfaceError.toString : InterfaceError → String
  | .Timeout => "Timeout"
  | .Overflow => "Overflow"
  | .Underflow => "Underflow"
  | .FramingError => "Framing Error"
  | .ParityError => "Parity Error"
  | .ChecksumError => "Checksum Error"
  | .ProtocolError => "Protocol Error"
  | .WriteOnReadOnly => "Write on Read Only"
  | .ReadOnWriteOnly => "Read on Write Only"
  | .NotOpenIFace => "Interface not open"
  | .AlreadyOpenIFace => "Interface already open"
  | .NotValidSocketAddr => "Not valid socket address"
  | .GenericError => "Unpredictable error"

/-- `InterfaceEvent` from `src/interfaces.rs`. -/
inductive InterfaceEvent where
  | DataReceived | DataSent | ConnectionEstablished | ConnectionLost | ErrorOccurred
  deriving DecidableEq

/-- `BaseInterface` from `src/interfaces.rs`. -/
structure BaseInterface where
  name : String
  description : String
  status : InterfaceStatus
  mode : InterfaceMode
  interface_type : InterfaceType
  interface_protocol : InterfaceProtocol
  log_interface : Bool
  error : Option InterfaceError
  event : Option InterfaceEvent
  deriving DecidableEq

/-- `BaseInterface::new`. -/
def BaseInterface.new (name description : String) (interface_type : InterfaceType)
    (mode : InterfaceMode) (interface_protocol : InterfaceProtocol)
    (log_if : Option Bool) : BaseInterface :=
  { name := name
    description := description
    status := InterfaceStatus.Disconnected
    mode := mode
    interface_type := interface_type
    interface_protocol := interface_protocol
    log_interface := match log_if with | some b => b | none => false
    error := none
    event := none }

/-- `BaseInterface::set_error`: stores the error. The call into the
logging collaborator performed by `log_error` is external to the state. -/
def BaseInterface.set_error (b : BaseInterface) (e : InterfaceError) : BaseInterface :=
  { b with error := some e }

/-- `FileInterface` from `src/interfaces.rs`; the held `std::fs::File`
handle is modelled by presence (`Option Unit`). -/
structure FileInterface where
  file_path : String
  file : Option Unit
  base_interface : BaseInterface
  deriving DecidableEq

/-- `FileInterface::new`. -/
def FileInterface.new (name description file_path : String) (mode : InterfaceMode)
    (log_if : Option Bool) : FileInterface :=
  { file_path := file_path
    file := none
    base_interface := BaseInterface.new name description
      ⟨PhysInterface.None, LogicalInterface.File⟩ mode InterfaceProtocol.Raw log_if }

/-- `FileInterface::open`. The three mode branches call
`File::open` / `File::create` / `OpenOptions::open`; all three are OS
calls whose outcome is the oracle `osOpen` (`.ok` yields the handle,
`.error e` is the `map_err(|e| e.to_string())?` propagation, which fires
before `self.file` is assigned). -/
def FileInterface.open (s : FileInterface) (osOpen : Except String Unit) :
    FileInterface × Except String Unit :=
  match s.base_interface.status with
  | InterfaceStatus.Connected =>
    let b := s.base_interface.set_error InterfaceError.AlreadyOpenIFace
    ({ s with base_interface := b }, Except.error InterfaceError.AlreadyOpenIFace.toString)
  | _ =>
    match osOpen with
    | Except.error e => (s, Except.error e)
    | Except.ok _ =>
      ({ s with file := some ()
                base_interface := { s.base_interface with status := InterfaceStatus.Connected } },
       Except.ok ())

/-- `FileInterface::close`. `self.file.take()` clears the handle before
`sync_all` (oracle `osSync`) runs; a sync failure therefore leaves the
status `Connected` while the handle is already gone. -/
def FileInterface.close (s : FileInterface) (osSync : Except String Unit) :
    FileInterface × Except String Unit :=
  match s.base_interface.status with
  | InterfaceStatus.Disconnected =>
    let b := s.base_interface.set_error InterfaceError.NotOpenIFace
    ({ s with base_interface := b }, Except.error InterfaceError.NotOpenIFace.toString)
  | _ =>
    match s.file with
    | some _ =>
      match osSync with
      | Except.error e => ({ s with file := none }, Except.error e)
      | Except.ok _ =>
        ({ s with file := none
                  base_interface := { s.base_interface with status := InterfaceStatus.Disconnected } },
         Except.ok ())
    | none =>
      let b := s.base_interface.set_error InterfaceError.NotOpenIFace
      ({ s with base_interface := b }, Except.error InterfaceError.NotOpenIFace.toString)

/-- `FileInterface::read`. `osRead` is the outcome of `file.read(buffer)`
(number of bytes placed in the buffer, or the IO error's message). -/
def FileInterface.read (s : FileInterface) (buffer : List Nat) (osRead : Except String Nat) :
    FileInterface × Except String Nat :=
  match s.base_interface.mode with
  | InterfaceMode.Write =>
    let b := s.base_interface.set_error InterfaceError.WriteOnReadOnly
    ({ s with base_interface := b }, Except.error InterfaceError.WriteOnReadOnly.toString)
  | _ =>
    match s.base_interface.status with
    | InterfaceStatus.Connected =>
      let b := { s.base_interface with error := none }
      match s.file with
      | some _ =>
        match osRead with
        | Except.error e => ({ s with base_interface := b }, Except.error e)
        | Except.ok n => ({ s with base_interface := b }, Except.ok (n % 4294967296))
      | none =>
        let b2 := b.set_error InterfaceError.GenericError
        ({ s with base_interface := b2 }, Except.error InterfaceError.GenericError.toString)
    | _ =>
      let b := s.base_interface.set_error InterfaceError.NotOpenIFace
      ({ s with base_interface := b }, Except.error InterfaceError.NotOpenIFace.toString)

/-- `FileInterface::write`. `osWrite` is the outcome of
`file.write_all(buffer)`. -/
def FileInterface.write (s : FileInterface) (buffer : List Nat) (osWrite : Except String Unit) :
    FileInterface × Except String Unit :=
  match s.base_interface.mode with
  | InterfaceMode.Read =>
    let b := s.base_interface.set_error InterfaceError.ReadOnWriteOnly
    ({ s with base_interface := b }, Except.error InterfaceError.ReadOnWriteOnly.toString)
  | _ =>
    match s.base_interface.status with
    | InterfaceStatus.Connected =>
      let b := { s.base_interface with error := none }
      match s.file with
      | some _ =>
        match osWrite with
        | Except.error e => ({ s with base_interface := b }, Except.error e)
        | Except.ok _ => ({ s with base_interface := b }, Except.ok ())
      | none =>
        let b2 := b.set_error InterfaceError.GenericError
        ({ s with base_interface := b2 }, Except.error InterfaceError.GenericError.toString)
    | _ =>
      let b := s.base_interface.set_error InterfaceError.NotOpenIFace
      ({ s with base_interface := b }, Except.error InterfaceError.NotOpenIFace.toString)

/-- `UDPInterface` from `src/interfaces.rs`; the bound `UdpSocket` is
modelled by presence (`Option Unit`), the parsed remote `SocketAddr` by
the `(address, port)` pair it was formatted from. -/
structure UDPInterface where
  ip_address : String
  port : Nat
  socket : Option Unit
  remote_addr : String
  remote_port : Nat
  remote_socket_addr : Option (String × Nat)
  multicast : Bool
  base_interface : BaseInterface
  deriving DecidableEq

/-- `UDPInterface::new`. `parseOk` is the outcome of parsing
`ip_address:port` as a `SocketAddr`; the Rust constructor panics when it
fails, modelled as `none`. The mode is hardwired to `ReadWrite`. -/
def UDPInterface.new (name description ip_address : String) (port : Nat)
    (log_if : Option Bool) (parseOk : Bool) : Option UDPInterface :=
  if parseOk then
    some
      { ip_address := ip_address
        port := port
        remote_addr := ""
        remote_port := 0
        socket := none
        remote_socket_addr := none
        multicast := false
        base_interface := BaseInterface.new name description
          ⟨PhysInterface.Ethernet, LogicalInterface.Socket⟩ InterfaceMode.ReadWrite
          InterfaceProtocol.UdpIp log_if }
  else none

/-- `UDPInterface::append_remote_addr`. `parseOk` is the outcome of
parsing `remote_ip:remote_port` as a `SocketAddr`. The Rust method
returns `()`; only the state matters. -/
def UDPInterface.append_remote_addr (s : UDPInterface) (remote_ip : String)
    (remote_port : Nat) (parseOk : Bool) : UDPInterface :=
  match s.base_interface.mode with
  | InterfaceMode.Read =>
    { s with base_interface := s.base_interface.set_error InterfaceError.ReadOnWriteOnly }
  | _ =>
    if parseOk then { s with remote_addr := remote_ip, remote_port := remote_port }
    else { s with base_interface := s.base_interface.set_error InterfaceError.NotValidSocketAddr }

/-- `UDPInterface::open`. `osBind` is the outcome of `UdpSocket::bind`.
`remoteParse` is the outcome of `IpAddr::from_str(remote_addr)`: `none`
when parsing fails (the `Err(_) => {}` branch), `some mc` when it yields
an address with `is_multicast() = mc`. `osJoin` collapses the
`set_multicast_loop` + `join_multicast` calls (v4 or v6) into one OS
outcome. On the parse-success path the already-parsed address formatted
with `remote_port` is stored as the remote socket address. -/
def UDPInterface.open (s : UDPInterface) (osBind : Except String Unit)
    (remoteParse : Option Bool) (osJoin : Except String Unit) :
    UDPInterface × Except String Unit :=
  match s.base_interface.status with
  | InterfaceStatus.Connected =>
    let b := s.base_interface.set_error InterfaceError.AlreadyOpenIFace
    ({ s with base_interface := b }, Except.error InterfaceError.AlreadyOpenIFace.toString)
  | _ =>
    match osBind with
    | Except.error e => (s, Except.error e)
    | Except.ok _ =>
      let s1 := { s with socket := some () }
      match remoteParse with
      | none =>
        ({ s1 with base_interface := { s1.base_interface with status := InterfaceStatus.Connected } },
         Except.ok ())
      | some mc =>
        if mc then
          match osJoin with
          | Except.error e => (s1, Except.error e)
          | Except.ok _ =>
            ({ s1 with remote_socket_addr := some (s.remote_addr, s.remote_port)
                       base_interface := { s1.base_interface with status := InterfaceStatus.Connected } },
             Except.ok ())
        else
          ({ s1 with remote_socket_addr := some (s.remote_addr, s.remote_port)
                     base_interface := { s1.base_interface with status := InterfaceStatus.Connected } },
           Except.ok ())

/-- `UDPInterface::close`. `osLeave` is the outcome of
`leave_multicast_v4/v6`. Note: the socket is matched by reference, never
taken, so `self.socket` still holds the socket after a successful close;
and `self.multicast` is never set to `true` anywhere in the source, so
the leave branch is dead in reachable states. -/
def UDPInterface.close (s : UDPInterface) (osLeave : Except String Unit) :
    UDPInterface × Except String Unit :=
  match s.base_interface.status with
  | InterfaceStatus.Disconnected =>
    let b := s.base_interface.set_error InterfaceError.NotOpenIFace
    ({ s with base_interface := b }, Except.error InterfaceError.NotOpenIFace.toString)
  | _ =>
    match s.socket with
    | some _ =>
      let s1 := { s with base_interface := { s.base_interface with status := InterfaceStatus.Disconnected } }
      match s.multicast, s.remote_socket_addr with
      | true, some _ =>
        match osLeave with
        | Except.error e => (s1, Except.error e)
        | Except.ok _ => (s1, Except.ok ())
      | _, _ => (s1, Except.ok ())
    | none =>
      let b := s.base_interface.set_error InterfaceError.NotOpenIFace
      ({ s with base_interface := b }, Except.error InterfaceError.NotOpenIFace.toString)

/-- `UDPInterface::read`. `osRecv` is the outcome of
`socket.recv_from(buffer)` (bytes received, or the IO error's message).
The branch tested is `self.socket.is_some()`, not the status; the inner
`else` (`GenericError`) of the Rust code is unreachable under the outer
`is_some` test and is absorbed by the match. -/
def UDPInterface.read (s : UDPInterface) (buffer : List Nat) (osRecv : Except String Nat) :
    UDPInterface × Except String Nat :=
  match s.base_interface.mode with
  | InterfaceMode.Write =>
    let b := s.base_interface.set_error InterfaceError.WriteOnReadOnly
    ({ s with base_interface := b }, Except.error InterfaceError.WriteOnReadOnly.toString)
  | _ =>
    match s.socket with
    | some _ =>
      match osRecv with
      | Except.error e => (s, Except.error e)
      | Except.ok n => (s, Except.ok (n % 4294967296))
    | none =>
      let b := s.base_interface.set_error InterfaceError.NotOpenIFace
      ({ s with base_interface := b }, Except.error InterfaceError.NotOpenIFace.toString)

/-- `UDPInterface::write`. `osSend` is the outcome of
`socket.send_to(buffer, remote_addr)`. A missing remote socket address
yields `GenericError`; a missing socket with a remote address present
yields `NotOpenIFace`. -/
def UDPInterface.write (s : UDPInterface) (buffer : List Nat) (osSend : Except String Unit) :
    UDPInterface × Except String Unit :=
  match s.base_interface.mode with
  | InterfaceMode.Read =>
    let b := s.base_interface.set_error InterfaceError.ReadOnWriteOnly
    ({ s with base_interface := b }, Except.error InterfaceError.ReadOnWriteOnly.toString)
  | _ =>
    match s.remote_socket_addr with
    | some _ =>
      match s.socket with
      | some _ =>
        match osSend with
        | Except.error e => (s, Except.error e)
        | Except.ok _ => (s, Except.ok ())
      | none =>
        let b := s.base_interface.set_error InterfaceError.NotOpenIFace
        ({ s with base_interface := b }, Except.error InterfaceError.NotOpenIFace.toString)
    | none =>
      let b := s.base_interface.set_error InterfaceError.GenericError
      ({ s with base_interface := b }, Except.error InterfaceError.GenericError.toString)

/-- `DataProcessor` from `src/processor_base/processing.rs` (the Record
of the spec): identity-tagged, timestamped chunk of bytes. -/
structure DataProcessor where
  ifcode : Nat
  id : Nat
  timestamp_sec : Nat
  timestamp_nsec : Nat
  data_size : Nat
  data : List Nat
  deriving DecidableEq

/-- `DataProcessor::new`. -/
def DataProcessor.new (ifcode id timestamp_sec timestamp_nsec data_size : Nat)
    (data : List Nat) : DataProcessor :=
  { ifcode := ifcode, id := id, timestamp_sec := timestamp_sec,
    timestamp_nsec := timestamp_nsec, data_size := data_size, data := data }

/-- The shared `HashMap<u64, Vec<DataProcessor>>` grouping map, modelled
as an association list whose order is the (arbitrary, unspecified)
iteration order the `HashMap` yields. -/
abbrev GroupMap := List (Nat × List DataProcessor)

/-- `map.remove(&id)`: drops the entry with the given key. -/
def removeKey (id : Nat) : GroupMap → GroupMap
  | [] => []
  | e :: rest => if e.1 = id then removeKey id rest else e :: removeKey id rest

/-- One pass of the `for (id, data_list) in map.clone().into_iter()` body
of `ReceiverMultiplexer::process` (`src/processor_base/processing.rs`,
lines 111-127). The first argument list is the remainder of the cloned
snapshot being iterated; the second is the live map the `remove` calls
act on; `send` and `lastSend` are the loop-local flags (`last_send`
starts at 0 each scan). Returns the map after the pass together with the
groups sent on the output channel, in emission order (the key is paired
with the group it identifies). -/
def scanLoop (senderSize : Nat) : GroupMap → GroupMap → Bool → Nat → GroupMap × GroupMap
  | [], m, _, _ => (m, [])
  | (id, dataList) :: rest, m, send, lastSend =>
    if dataList.length = senderSize then
      ((scanLoop senderSize rest (removeKey id m) true id).1,
       (id, dataList) :: (scanLoop senderSize rest (removeKey id m) true id).2)
    else if id < lastSend then
      scanLoop senderSize rest (removeKey id m) send lastSend
    else if send then
      (m, [])
    else
      scanLoop senderSize rest m send lastSend

/-- One full iteration of the consolidation loop of
`ReceiverMultiplexer::process` under the lock: scan the cloned snapshot
of the map (`senderSize = self.input_data.len()`, the number of
registered input receivers). -/
def consolidateScan (senderSize : Nat) (m : GroupMap) : GroupMap × GroupMap :=
  scanLoop senderSize m m false 0

/-- `Parameter<T>` from `src/processor_base/parameter.rs`; `T` ranges
over the `ParameterTypeTrait` types (ordered, copyable). -/
structure Parameter (T : Type) where
  name : String
  description : String
  current_value : T
  next_value : T
  min_value : Option T
  max_value : Option T
  allowed_values : Option (List T)
  deriving DecidableEq

variable {T : Type} [LinearOrder T]

/-- `Parameter::new`: `next_value` starts as a clone of `current_value`;
no bounds or allowed-set check is performed. -/
def Parameter.new (name description : String) (current_value : T)
    (min_value max_value : Option T) (allowed_values : Option (List T)) : Parameter T :=
  { name := name
    description := description
    current_value := current_value
    next_value := current_value
    min_value := min_value
    max_value := max_value
    allowed_values := allowed_values }

/-- `Parameter::check_limits`: `false` when the value is below a present
`min_value` or above a present `max_value` (`value > max` is `max < value`). -/
def Parameter.check_limits (p : Parameter T) (value : T) : Bool :=
  (match p.min_value with | some mn => decide (¬ value < mn) | none => true) &&
  (match p.max_value with | some mx => decide (¬ mx < value) | none => true)

/-- `Parameter::check_allowed_values`. -/
def Parameter.check_allowed_values [DecidableEq T] (p : Parameter T) (value : T) : Bool :=
  match p.allowed_values with
  | some allowed => decide (value ∈ allowed)
  | none => true

/-- `Parameter::set_next_value`: the Rust method panics on a violated
constraint, modelled as `Except.error` with the panic message (the
formatted value elided); on success it stages the value in `next_value`. -/
def Parameter.set_next_value [DecidableEq T] (p : Parameter T) (value : T) :
    Except String (Parameter T) :=
  if p.check_limits value = false then
    Except.error "Value is out of limits"
  else if p.check_allowed_values value = false then
    Except.error "Value is not in allowed values"
  else
    Except.ok { p with next_value := value }

/-- `Parameter::update_value`: commits `next_value` into `current_value`. -/
def Parameter.update_value (p : Parameter T) : Parameter T :=
  { p with current_value := p.next_value }

/-- A minimal record carrying a given sequence id, used in concrete
scenarios. -/
def dp (i : Nat) : DataProcessor := DataProcessor.new 0 i 0 0 0 []

theorem removeKey_keys_subset (id : Nat) (m : GroupMap) (x : Nat) :
    x ∈ (removeKey id m).map Prod.fst → x ∈ m.map Prod.fst := by
  induction m with
  | nil => intro hx; exact hx
  | cons e rest ih =>
    intro hx
    simp only [removeKey] at hx
    by_cases he : e.1 = id
    · rw [if_pos he] at hx
      simp only [List.map_cons, List.mem_cons]
      exact Or.inr (ih hx)
    · rw [if_neg he] at hx
      simp only [List.map_cons, List.mem_cons] at hx ⊢
      rcases hx with h | h
      · exact Or.inl h
      · exact Or.inr (ih h)

theorem removeKey_not_mem_keys (id : Nat) (m : GroupMap) :
    id ∉ (removeKey id m).map Prod.fst := by
  induction m with
  | nil => simp [removeKey]
  | cons e rest ih =>
    simp only [removeKey]
    by_cases he : e.1 = id
    · rw [if_pos he]; exact ih
    · rw [if_neg he]
      simp only [List.map_cons, List.mem_cons]
      rintro (h | h)
      · exact he h.symm
      · exact ih h

theorem scanLoop_sent_mem (sz : Nat) (ent : GroupMap) :
    ∀ (m : GroupMap) (send : Bool) (lastSend : Nat) (p : Nat × List DataProcessor),
      p ∈ (scanLoop sz ent m send lastSend).2 → p.2.length = sz ∧ p ∈ ent := by
  induction ent with
  | nil => intro m send l p hp; simp [scanLoop] at hp
  | cons e rest ih =>
    intro m send l p hp
    obtain ⟨id, dl⟩ := e
    simp only [scanLoop] at hp
    by_cases hlen : dl.length = sz
    · rw [if_pos hlen] at hp
      rcases List.mem_cons.mp hp with h | h
      · subst h; exact ⟨hlen, List.mem_cons_self _ _⟩
      · obtain ⟨h1, h2⟩ := ih _ _ _ _ h
        exact ⟨h1, List.mem_cons_of_mem _ h2⟩
    · rw [if_neg hlen] at hp
      by_cases hlt : id < l
      · rw [if_pos hlt] at hp
        obtain ⟨h1, h2⟩ := ih _ _ _ _ hp
        exact ⟨h1, List.mem_cons_of_mem _ h2⟩
      · rw [if_neg hlt] at hp
        cases send with
        | true => simp at hp
        | false =>
          simp only [Bool.false_eq_true, if_false] at hp
          obtain ⟨h1, h2⟩ := ih _ _ _ _ hp
          exact ⟨h1, List.mem_cons_of_mem _ h2⟩

theorem scanLoop_final_keys_subset (sz : Nat) (ent : GroupMap) :
    ∀ (m : GroupMap) (send : Bool) (lastSend : Nat) (x : Nat),
      x ∈ (scanLoop sz ent m send lastSend).1.map Prod.fst → x ∈ m.map Prod.fst := by
  induction ent with
  | nil => intro m send l x hx; exact hx
  | cons e rest ih =>
    intro m send l x hx
    obtain ⟨id, dl⟩ := e
    simp only [scanLoop] at hx
    by_cases hlen : dl.length = sz
    · rw [if_pos hlen] at hx
      exact removeKey_keys_subset id m x (ih _ _ _ _ hx)
    · rw [if_neg hlen] at hx
      by_cases hlt : id < l
      · rw [if_pos hlt] at hx
        exact removeKey_keys_subset id m x (ih _ _ _ _ hx)
      · rw [if_neg hlt] at hx
        cases send with
        | true => simp only [if_pos rfl] at hx; exact hx
        | false =>
          simp only [Bool.false_eq_true, if_false] at hx
          exact ih _ _ _ _ hx

theorem scanLoop_sent_not_mem_final (sz : Nat) (ent : GroupMap) :
    ∀ (m : GroupMap) (send : Bool) (lastSend : Nat) (p : Nat × List DataProcessor),
      p ∈ (scanLoop sz ent m send lastSend).2 →
      p.1 ∉ (scanLoop sz ent m send lastSend).1.map Prod.fst := by
  induction ent with
  | nil => intro m send l p hp; simp [scanLoop] at hp
  | cons e rest ih =>
    intro m send l p hp
    obtain ⟨id, dl⟩ := e
    simp only [scanLoop] at hp ⊢
    by_cases hlen : dl.length = sz
    · rw [if_pos hlen] at hp ⊢
      rcases List.mem_cons.mp hp with h | h
      · subst h
        intro hmem
        exact removeKey_not_mem_keys id m
          (scanLoop_final_keys_subset sz rest _ _ _ _ hmem)
      · exact ih _ _ _ _ h
    · rw [if_neg hlen] at hp ⊢
      by_cases hlt : id < l
      · rw [if_pos hlt] at hp ⊢
        exact ih _ _ _ _ hp
      · rw [if_neg hlt] at hp ⊢
        cases send with
        | true => simp at hp
        | false =>
          simp only [Bool.false_eq_true, if_false] at hp ⊢
          exact ih _ _ _ _ hp

theorem scanLoop_sent_keys_sublist (sz : Nat) (ent : GroupMap) :
    ∀ (m : GroupMap) (send : Bool) (lastSend : Nat),
      ((scanLoop sz ent m send lastSend).2.map Prod.fst).Sublist (ent.map Prod.fst) := by
  induction ent with
  | nil => intro m send l; simp [scanLoop]
  | cons e rest ih =>
    intro m send l
    obtain ⟨id, dl⟩ := e
    simp only [scanLoop]
    by_cases hlen : dl.length = sz
    · rw [if_pos hlen]
      simpa using List.Sublist.cons₂ id (ih _ _ _)
    · rw [if_neg hlen]
      by_cases hlt : id < l
      · rw [if_pos hlt]
        exact List.Sublist.cons id (ih _ _ _)
      · rw [if_neg hlt]
        cases send with
        | true => simp
        | false =>
          simp only [Bool.false_eq_true, if_false]
          exact List.Sublist.cons id (ih _ _ _)

/-- Claim C2: in the consolidation loop of `ReceiverMultiplexer::process`,
a key's group is emitted on the output channel only when the number of
records collected under that key equals the number of registered input
receivers (`senderSize = input_data.len()`); the key's entry is removed
from the grouping map together with its emission; and, the map's keys
being distinct (as for a `HashMap`), no key is emitted twice in a scan —
so every sequence id is emitted at most once. -/
theorem scan_emits_only_complete_groups (senderSize : Nat) (m : GroupMap)
    (hkeys : (m.map Prod.fst).Nodup) :
    (∀ p ∈ (consolidateScan senderSize m).2,
        p.2.length = senderSize ∧ p.1 ∉ (consolidateScan senderSize m).1.map Prod.fst) ∧
    ((consolidateScan senderSize m).2.map Prod.fst).Nodup := by
  refine ⟨fun p hp => ⟨(scanLoop_sent_mem senderSize m m false 0 p hp).1,
    scanLoop_sent_not_mem_final senderSize m m false 0 p hp⟩, ?_⟩
  exact List.Nodup.sublist (scanLoop_sent_keys_sublist senderSize m m false 0) hkeys

/-- Witness for C2 on a concrete map: with two registered receivers, key 1
(complete) is emitted and removed, key 2 (one record) is not. -/
theorem scan_emits_only_complete_groups_check :
    (([(1, [dp 1, dp 1]), (2, [dp 2])] : GroupMap).map Prod.fst).Nodup ∧
    ((∀ p ∈ (consolidateScan 2 [(1, [dp 1, dp 1]), (2, [dp 2])]).2,
        p.2.length = 2 ∧
        p.1 ∉ (consolidateScan 2 [(1, [dp 1, dp 1]), (2, [dp 2])]).1.map Prod.fst) ∧
     ((consolidateScan 2 [(1, [dp 1, dp 1]), (2, [dp 2])]).2.map Prod.fst).Nodup) :=
  ⟨by decide, scan_emits_only_complete_groups 2 [(1, [dp 1, dp 1]), (2, [dp 2])] (by decide)⟩

/-- Claim C3 (refuting evaluation): with three registered receivers, a
snapshot iterated as key 7 (two records) before key 8 (three records)
emits key 8 but leaves the stale key 7 in the map — it is not evicted
with the emission — and a later scan seeing only the partial key 7
leaves it in place again (`last_send` restarts at 0), so it is never
evicted (though also never emitted while incomplete). -/
theorem stale_partial_group_survives_scan :
    (consolidateScan 3 [(7, [dp 7, dp 7]), (8, [dp 8, dp 8, dp 8])]).2.map Prod.fst = [8] ∧
    (consolidateScan 3 [(7, [dp 7, dp 7]), (8, [dp 8, dp 8, dp 8])]).1.map Prod.fst = [7] ∧
    consolidateScan 3 [(7, [dp 7, dp 7])] = ([(7, [dp 7, dp 7])], []) ∧
    (consolidateScan 3 [(8, [dp 8, dp 8, dp 8]), (7, [dp 7, dp 7])]).1 = [] := by
  refine ⟨by decide, by decide, by decide, by decide⟩

/-- Claim C4 (refuting evaluation): two keys complete in the same scan are
emitted in snapshot iteration order, not ascending key order — iterating
key 8 before key 7 with one registered receiver emits 8 then 7, a
decreasing key sequence (the completeness test precedes the staleness
test, so key 7 is emitted even though it is older than the emitted 8). -/
theorem same_scan_emission_not_key_ordered :
    (consolidateScan 1 [(8, [dp 8]), (7, [dp 7])]).2.map Prod.fst = [8, 7] ∧
    ¬ List.Sorted (· ≤ ·) ((consolidateScan 1 [(8, [dp 8]), (7, [dp 7])]).2.map Prod.fst) := by
  refine ⟨by decide, by decide⟩

/-- Claim C7: mode enforcement. For every File or UDP interface state,
every buffer contents, every current status and every OS outcome: a
Read-mode interface's `write` fails with `ReadOnWriteOnly` and a
Write-mode interface's `read` fails with `WriteOnReadOnly`, setting the
stored error accordingly. -/
theorem mode_enforcement :
    (∀ (s : FileInterface) (buffer : List Nat) (os : Except String Unit),
       s.base_interface.mode = InterfaceMode.Read →
       (FileInterface.write s buffer os).2 =
         Except.error InterfaceError.ReadOnWriteOnly.toString ∧
       (FileInterface.write s buffer os).1.base_interface.error =
         some InterfaceError.ReadOnWriteOnly) ∧
    (∀ (s : FileInterface) (buffer : List Nat) (os : Except String Nat),
       s.base_interface.mode = InterfaceMode.Write →
       (FileInterface.read s buffer os).2 =
         Except.error InterfaceError.WriteOnReadOnly.toString ∧
       (FileInterface.read s buffer os).1.base_interface.error =
         some InterfaceError.WriteOnReadOnly) ∧
    (∀ (s : UDPInterface) (buffer : List Nat) (os : Except String Unit),
       s.base_interface.mode = InterfaceMode.Read →
       (UDPInterface.write s buffer os).2 =
         Except.error InterfaceError.ReadOnWriteOnly.toString ∧
       (UDPInterface.write s buffer os).1.base_interface.error =
         some InterfaceError.ReadOnWriteOnly) ∧
    (∀ (s : UDPInterface) (buffer : List Nat) (os : Except String Nat),
       s.base_interface.mode = InterfaceMode.Write →
       (UDPInterface.read s buffer os).2 =
         Except.error InterfaceError.WriteOnReadOnly.toString ∧
       (UDPInterface.read s buffer os).1.base_interface.error =
         some InterfaceError.WriteOnReadOnly) := by
  refine ⟨fun s buffer os h => ?_, fun s buffer os h => ?_,
          fun s buffer os h => ?_, fun s buffer os h => ?_⟩ <;>
    simp [FileInterface.write, FileInterface.read, UDPInterface.write, UDPInterface.read,
      BaseInterface.set_error, h]

/-- Witness for C7: a concrete Read-mode File interface rejects `write`
with `ReadOnWriteOnly`. -/
theorem mode_enforcement_check :
    (FileInterface.new "f" "d" "p" InterfaceMode.Read none).base_interface.mode =
      InterfaceMode.Read ∧
    ((FileInterface.write (FileInterface.new "f" "d" "p" InterfaceMode.Read none) [0]
        (Except.ok ())).2 = Except.error InterfaceError.ReadOnWriteOnly.toString ∧
     (FileInterface.write (FileInterface.new "f" "d" "p" InterfaceMode.Read none) [0]
        (Except.ok ())).1.base_interface.error = some InterfaceError.ReadOnWriteOnly) :=
  ⟨rfl, mode_enforcement.1 (FileInterface.new "f" "d" "p" InterfaceMode.Read none) [0]
    (Except.ok ()) rfl⟩

/-- The UDP interface produced by `UDPInterface::new("u", "d",
"127.0.0.1", 8080, None)` (the address parses, so construction succeeds). -/
def udpBase : UDPInterface :=
  { ip_address := "127.0.0.1"
    port := 8080
    socket := none
    remote_addr := ""
    remote_port := 0
    remote_socket_addr := none
    multicast := false
    base_interface := BaseInterface.new "u" "d"
      ⟨PhysInterface.Ethernet, LogicalInterface.Socket⟩ InterfaceMode.ReadWrite
      InterfaceProtocol.UdpIp none }

/-- `udpBase` after a successful `open` (bind succeeds; the empty remote
address fails to parse as an `IpAddr`, so the multicast path is skipped). -/
def udpOpened : UDPInterface :=
  (UDPInterface.open udpBase (Except.ok ()) none (Except.ok ())).1

/-- `udpOpened` after a successful `close`. -/
def udpAfterClose : UDPInterface :=
  (UDPInterface.close udpOpened (Except.ok ())).1

/-- A File interface opened for reading (OS open succeeded). -/
def fileOpened : FileInterface :=
  (FileInterface.open (FileInterface.new "f" "d" "p" InterfaceMode.Read none) (Except.ok ())).1

/-- Claim C1 (refuting evaluation): the construction/open/close chain
above is reachable (`new` yields `udpBase`; open and close both report
success), and leaves the UDP interface Disconnected — yet still holding
its socket, since `close` matches it by reference and never releases it.
A subsequent `read` does not fail with `NotOpenIFace`: it performs
`recv_from` on the retained socket, its outcome being exactly the OS
call's outcome (so the transport resource is used). Likewise `write`
before any `open` fails with `GenericError` (no remote address), not
`NotOpenIFace`. A File interface, by contrast, does satisfy the claim in
the never-opened case. -/
theorem udp_read_after_close_uses_socket :
    UDPInterface.new "u" "d" "127.0.0.1" 8080 none true = some udpBase ∧
    (UDPInterface.open udpBase (Except.ok ()) none (Except.ok ())).2 = Except.ok () ∧
    (UDPInterface.close udpOpened (Except.ok ())).2 = Except.ok () ∧
    udpAfterClose.base_interface.status = InterfaceStatus.Disconnected ∧
    udpAfterClose.socket = some () ∧
    (UDPInterface.read udpAfterClose [0] (Except.ok 5)).2 = Except.ok 5 ∧
    (UDPInterface.read udpAfterClose [0] (Except.error "io down")).2 =
      Except.error "io down" ∧
    (UDPInterface.write udpBase [1] (Except.ok ())).2 =
      Except.error InterfaceError.GenericError.toString ∧
    InterfaceError.GenericError.toString ≠ InterfaceError.NotOpenIFace.toString ∧
    (FileInterface.read (FileInterface.new "f" "d" "p" InterfaceMode.Read none) [0]
        (Except.ok 0)).2 = Except.error InterfaceError.NotOpenIFace.toString :=
  ⟨rfl, rfl, rfl, rfl, rfl, rfl, rfl, rfl, by decide, rfl⟩

/-- Claim C5 (counterexample): on the opened File interface an OS-level
read failure with message "boom" returns that message, not
`GenericError`, and leaves the stored error at `none` rather than
`GenericError`; an OS-level open failure likewise propagates the OS
message with the stored error untouched. -/
theorem file_io_error_not_generic :
    (FileInterface.read fileOpened [0] (Except.error "boom")).2 = Except.error "boom" ∧
    (FileInterface.read fileOpened [0] (Except.error "boom")).2 ≠
      Except.error InterfaceError.GenericError.toString ∧
    (FileInterface.read fileOpened [0] (Except.error "boom")).1.base_interface.error = none ∧
    (FileInterface.read fileOpened [0] (Except.error "boom")).1.base_interface.error ≠
      some InterfaceError.GenericError ∧
    (FileInterface.open (FileInterface.new "f" "d" "p" InterfaceMode.Read none)
        (Except.error "no such file")).2 = Except.error "no such file" ∧
    (FileInterface.open (FileInterface.new "f" "d" "p" InterfaceMode.Read none)
        (Except.error "no such file")).1.base_interface.error = none :=
  ⟨rfl, by intro h; exact absurd (Except.error.inj h) (by decide), rfl, by decide, rfl, rfl⟩

/-- Claim C5 (amended): an OS-level failure during `FileInterface`
open/read/write propagates the OS error's own message as the returned
error; the failure itself does not store an error (read and write have
already cleared the stored error to `none` on entering the Connected
branch, open leaves the state untouched). `GenericError` is set and
returned only in the internal-inconsistency case: status `Connected`
but no file handle held. -/
theorem file_io_error_propagates_message :
    (∀ (s : FileInterface) (buffer : List Nat) (e : String),
       s.base_interface.mode ≠ InterfaceMode.Write →
       s.base_interface.status = InterfaceStatus.Connected →
       s.file = some () →
       FileInterface.read s buffer (Except.error e) =
         ({ s with base_interface := { s.base_interface with error := none } },
          Except.error e)) ∧
    (∀ (s : FileInterface) (buffer : List Nat) (e : String),
       s.base_interface.mode ≠ InterfaceMode.Read →
       s.base_interface.status = InterfaceStatus.Connected →
       s.file = some () →
       FileInterface.write s buffer (Except.error e) =
         ({ s with base_interface := { s.base_interface with error := none } },
          Except.error e)) ∧
    (∀ (s : FileInterface) (e : String),
       s.base_interface.status ≠ InterfaceStatus.Connected →
       FileInterface.open s (Except.error e) = (s, Except.error e)) ∧
    (∀ (s : FileInterface) (buffer : List Nat) (os : Except String Nat),
       s.base_interface.mode ≠ InterfaceMode.Write →
       s.base_interface.status = InterfaceStatus.Connected →
       s.file = none →
       FileInterface.read s buffer os =
         ({ s with base_interface :=
              { s.base_interface with error := some InterfaceError.GenericError } },
          Except.error InterfaceError.GenericError.toString)) := by
  refine ⟨fun s buffer e hm hs hf => ?_, fun s buffer e hm hs hf => ?_,
          fun s e hs => ?_, fun s buffer os hm hs hf => ?_⟩
  · cases hmode : s.base_interface.mode <;>
      simp_all [FileInterface.read, BaseInterface.set_error]
  · cases hmode : s.base_interface.mode <;>
      simp_all [FileInterface.write, BaseInterface.set_error]
  · cases hst : s.base_interface.status <;>
      simp_all [FileInterface.open]
  · cases hmode : s.base_interface.mode <;>
      simp_all [FileInterface.read, BaseInterface.set_error]

/-- Witness for the amended C5 at the concrete opened File interface and
OS message "boom". -/
theorem file_io_error_propagates_message_check :
    (fileOpened.base_interface.mode ≠ InterfaceMode.Write ∧
     fileOpened.base_interface.status = InterfaceStatus.Connected ∧
     fileOpened.file = some ()) ∧
    FileInterface.read fileOpened [0] (Except.error "boom") =
      ({ fileOpened with base_interface := { fileOpened.base_interface with error := none } },
       Except.error "boom") :=
  ⟨⟨by decide, rfl, rfl⟩,
   file_io_error_propagates_message.1 fileOpened [0] "boom" (by decide) rfl rfl⟩

/-- `udpOpened` after a `write` that failed with `GenericError` (no
remote address configured): a reachable state with a stored error. -/
def udpErrStored : UDPInterface :=
  (UDPInterface.write udpOpened [1] (Except.ok ())).1

/-- Claim C6 (counterexample): the reachable UDP state with stored error
`GenericError` (left by a failed write) performs a successful read — the
OS call returns 3 bytes and the read reports them — yet the stored
error is not cleared to `none`: UDP read never clears the stored error. -/
theorem udp_read_keeps_stored_error :
    udpErrStored.base_interface.error = some InterfaceError.GenericError ∧
    (UDPInterface.read udpErrStored [0] (Except.ok 3)).2 = Except.ok 3 ∧
    (UDPInterface.read udpErrStored [0] (Except.ok 3)).1.base_interface.error =
      some InterfaceError.GenericError ∧
    (UDPInterface.read udpErrStored [0] (Except.ok 3)).1.base_interface.error ≠ none :=
  ⟨rfl, rfl, rfl, by decide⟩

/-- Claim C6 (amended): File read and write clear the stored error to
`none` on entering the Connected branch (hence at the start of every
successful File read/write); UDP read and write leave the state — and so
the stored error — entirely unchanged on success; and open/close (File
and UDP, for any outcome of the OS calls) never clear a previously
stored error: they either overwrite it with a new error or leave it as
it is. -/
theorem error_clearing_discipline :
    (∀ (s : FileInterface) (buffer : List Nat) (n : Nat),
       s.base_interface.mode ≠ InterfaceMode.Write →
       s.base_interface.status = InterfaceStatus.Connected → s.file = some () →
       (FileInterface.read s buffer (Except.ok n)).1.base_interface.error = none) ∧
    (∀ (s : FileInterface) (buffer : List Nat),
       s.base_interface.mode ≠ InterfaceMode.Read →
       s.base_interface.status = InterfaceStatus.Connected → s.file = some () →
       (FileInterface.write s buffer (Except.ok ())).1.base_interface.error = none) ∧
    (∀ (s : UDPInterface) (buffer : List Nat) (n : Nat),
       s.base_interface.mode ≠ InterfaceMode.Write → s.socket = some () →
       (UDPInterface.read s buffer (Except.ok n)).1 = s) ∧
    (∀ (s : UDPInterface) (buffer : List Nat) (a : String × Nat),
       s.base_interface.mode ≠ InterfaceMode.Read → s.socket = some () →
       s.remote_socket_addr = some a →
       (UDPInterface.write s buffer (Except.ok ())).1 = s) ∧
    (∀ (s : FileInterface) (os : Except String Unit) (er : InterfaceError),
       s.base_interface.error = some er →
       (FileInterface.open s os).1.base_interface.error ≠ none) ∧
    (∀ (s : FileInterface) (os : Except String Unit) (er : InterfaceError),
       s.base_interface.error = some er →
       (FileInterface.close s os).1.base_interface.error ≠ none) ∧
    (∀ (s : UDPInterface) (osBind : Except String Unit) (rp : Option Bool)
       (osJoin : Except String Unit) (er : InterfaceError),
       s.base_interface.error = some er →
       (UDPInterface.open s osBind rp osJoin).1.base_interface.error ≠ none) ∧
    (∀ (s : UDPInterface) (os : Except String Unit) (er : InterfaceError),
       s.base_interface.error = some er →
       (UDPInterface.close s os).1.base_interface.error ≠ none) := by
  refine ⟨fun s buffer n hm hs hf => ?_, fun s buffer hm hs hf => ?_,
          fun s buffer n hm hsock => ?_, fun s buffer a hm hsock hrem => ?_,
          fun s os er he => ?_, fun s os er he => ?_,
          fun s osBind rp osJoin er he => ?_, fun s os er he => ?_⟩
  · cases hmode : s.base_interface.mode <;>
      simp_all [FileInterface.read, BaseInterface.set_error]
  · cases hmode : s.base_interface.mode <;>
      simp_all [FileInterface.write, BaseInterface.set_error]
  · cases hmode : s.base_interface.mode <;>
      simp_all [UDPInterface.read, BaseInterface.set_error]
  · cases hmode : s.base_interface.mode <;>
      simp_all [UDPInterface.write, BaseInterface.set_error]
  · cases hst : s.base_interface.status <;>
      cases os <;> simp_all [FileInterface.open, BaseInterface.set_error]
  · cases hst : s.base_interface.status <;> cases hf : s.file <;>
      cases os <;> simp_all [FileInterface.close, BaseInterface.set_error]
  · cases hst : s.base_interface.status <;> cases osBind <;> rcases rp with _ | mc <;>
      cases osJoin <;>
      simp_all [UDPInterface.open, BaseInterface.set_error] <;>
      cases mc <;> simp_all
  · cases hst : s.base_interface.status <;> cases hsock : s.socket <;>
      cases hmc : s.multicast <;> cases hrem : s.remote_socket_addr <;>
      cases os <;> simp_all [UDPInterface.close, BaseInterface.set_error]

/-- Witness for the amended C6: the opened File interface clears its
stored error on a successful read; the UDP state with a stored
`GenericError` keeps it across a successful read and across a close. -/
theorem error_clearing_discipline_check :
    (fileOpened.base_interface.mode ≠ InterfaceMode.Write ∧
     fileOpened.base_interface.status = InterfaceStatus.Connected ∧
     fileOpened.file = some () ∧
     udpErrStored.base_interface.mode ≠ InterfaceMode.Write ∧
     udpErrStored.socket = some () ∧
     udpErrStored.base_interface.error = some InterfaceError.GenericError) ∧
    (FileInterface.read fileOpened [0] (Except.ok 3)).1.base_interface.error = none ∧
    (UDPInterface.read udpErrStored [0] (Except.ok 3)).1 = udpErrStored ∧
    (UDPInterface.close udpErrStored (Except.ok ())).1.base_interface.error ≠ none :=
  ⟨⟨by decide, rfl, rfl, by decide, rfl, rfl⟩,
   error_clearing_discipline.1 fileOpened [0] 3 (by decide) rfl rfl,
   error_clearing_discipline.2.2.1 udpErrStored [0] 3 (by decide) rfl,
   error_clearing_discipline.2.2.2.2.2.2.2 udpErrStored (Except.ok ())
     InterfaceError.GenericError rfl⟩

/-- Claim C10: `UDPInterface::new` takes no mode argument and hardwires
mode `ReadWrite`; no UDP operation ever changes the mode; and under mode
`ReadWrite` the `WriteOnReadOnly` branch of `read`, the
`ReadOnWriteOnly` branch of `write` and the `ReadOnWriteOnly` branch of
`append_remote_addr` are not taken: none of them can store its error
(when not already stored), and `read`/`write` can only return those
error strings if the OS call itself produced that exact message. -/
theorem udp_mode_hardwired_readwrite :
    (∀ (name description ip : String) (port : Nat) (lg : Option Bool) (pOk : Bool)
       (s : UDPInterface),
       UDPInterface.new name description ip port lg pOk = some s →
       s.base_interface.mode = InterfaceMode.ReadWrite) ∧
    (∀ (s : UDPInterface) (osBind : Except String Unit) (rp : Option Bool)
       (osJoin : Except String Unit),
       (UDPInterface.open s osBind rp osJoin).1.base_interface.mode =
         s.base_interface.mode) ∧
    (∀ (s : UDPInterface) (os : Except String Unit),
       (UDPInterface.close s os).1.base_interface.mode = s.base_interface.mode) ∧
    (∀ (s : UDPInterface) (buffer : List Nat) (os : Except String Nat),
       (UDPInterface.read s buffer os).1.base_interface.mode = s.base_interface.mode) ∧
    (∀ (s : UDPInterface) (buffer : List Nat) (os : Except String Unit),
       (UDPInterface.write s buffer os).1.base_interface.mode = s.base_interface.mode) ∧
    (∀ (s : UDPInterface) (rip : String) (rport : Nat) (pOk : Bool),
       (UDPInterface.append_remote_addr s rip rport pOk).base_interface.mode =
         s.base_interface.mode) ∧
    (∀ (s : UDPInterface) (buffer : List Nat) (os : Except String Nat),
       s.base_interface.mode = InterfaceMode.ReadWrite →
       s.base_interface.error ≠ some InterfaceError.WriteOnReadOnly →
       (UDPInterface.read s buffer os).1.base_interface.error ≠
         some InterfaceError.WriteOnReadOnly ∧
       ((UDPInterface.read s buffer os).2 =
          Except.error InterfaceError.WriteOnReadOnly.toString →
        os = Except.error InterfaceError.WriteOnReadOnly.toString)) ∧
    (∀ (s : UDPInterface) (buffer : List Nat) (os : Except String Unit),
       s.base_interface.mode = InterfaceMode.ReadWrite →
       s.base_interface.error ≠ some InterfaceError.ReadOnWriteOnly →
       (UDPInterface.write s buffer os).1.base_interface.error ≠
         some InterfaceError.ReadOnWriteOnly ∧
       ((UDPInterface.write s buffer os).2 =
          Except.error InterfaceError.ReadOnWriteOnly.toString →
        os = Except.error InterfaceError.ReadOnWriteOnly.toString)) ∧
    (∀ (s : UDPInterface) (rip : String) (rport : Nat) (pOk : Bool),
       s.base_interface.mode = InterfaceMode.ReadWrite →
       s.base_interface.error ≠ some InterfaceError.ReadOnWriteOnly →
       (UDPInterface.append_remote_addr s rip rport pOk).base_interface.error ≠
         some InterfaceError.ReadOnWriteOnly) := by
  refine ⟨fun name description ip port lg pOk s h => ?_,
          fun s osBind rp osJoin => ?_, fun s os => ?_, fun s buffer os => ?_,
          fun s buffer os => ?_, fun s rip rport pOk => ?_,
          fun s buffer os hm he => ?_, fun s buffer os hm he => ?_,
          fun s rip rport pOk hm he => ?_⟩
  · cases pOk <;> simp [UDPInterface.new] at h
    subst h; rfl
  · cases hst : s.base_interface.status <;> cases osBind <;>
      rcases rp with _ | mc <;> cases osJoin <;>
      simp_all [UDPInterface.open, BaseInterface.set_error] <;>
      cases mc <;> simp_all
  · cases hst : s.base_interface.status <;> cases hsock : s.socket <;>
      cases hmc : s.multicast <;> cases hrem : s.remote_socket_addr <;>
      cases os <;> simp_all [UDPInterface.close, BaseInterface.set_error]
  · cases hmode : s.base_interface.mode <;> cases hsock : s.socket <;>
      cases os <;> simp_all [UDPInterface.read, BaseInterface.set_error]
  · cases hmode : s.base_interface.mode <;> cases hsock : s.socket <;>
      cases hrem : s.remote_socket_addr <;> cases os <;>
      simp_all [UDPInterface.write, BaseInterface.set_error]
  · cases hmode : s.base_interface.mode <;> cases pOk <;>
      simp_all [UDPInterface.append_remote_addr, BaseInterface.set_error]
  · cases hsock : s.socket <;> cases os <;>
      simp_all [UDPInterface.read, BaseInterface.set_error, InterfaceError.toString]
  · cases hsock : s.socket <;> cases hrem : s.remote_socket_addr <;> cases os <;>
      simp_all [UDPInterface.write, BaseInterface.set_error, InterfaceError.toString]
  · cases pOk <;>
      simp_all [UDPInterface.append_remote_addr, BaseInterface.set_error]

/-- Witness for C10 at the concrete constructor call and the constructed
state: the mode is `ReadWrite` and a read cannot produce
`WriteOnReadOnly`. -/
theorem udp_mode_hardwired_readwrite_check :
    (UDPInterface.new "u" "d" "127.0.0.1" 8080 none true = some udpBase ∧
     udpBase.base_interface.mode = InterfaceMode.ReadWrite ∧
     udpBase.base_interface.error ≠ some InterfaceError.WriteOnReadOnly) ∧
    udpBase.base_interface.mode = InterfaceMode.ReadWrite ∧
    (UDPInterface.read udpBase [0] (Except.ok 0)).1.base_interface.error ≠
      some InterfaceError.WriteOnReadOnly :=
  ⟨⟨rfl, rfl, by decide⟩,
   udp_mode_hardwired_readwrite.1 "u" "d" "127.0.0.1" 8080 none true udpBase rfl,
   (udp_mode_hardwired_readwrite.2.2.2.2.2.2.1 udpBase [0] (Except.ok 0) rfl
      (by decide)).1⟩

theorem check_limits_true_iff {T : Type} [LinearOrder T] (p : Parameter T) (v : T) :
    p.check_limits v = true ↔
      (∀ mn, p.min_value = some mn → ¬ v < mn) ∧
      (∀ mx, p.max_value = some mx → ¬ mx < v) := by
  rcases hmn : p.min_value with _ | mn <;> rcases hmx : p.max_value with _ | mx <;>
    simp [Parameter.check_limits, hmn, hmx]

theorem check_allowed_true_iff {T : Type} [LinearOrder T] [DecidableEq T]
    (p : Parameter T) (v : T) :
    p.check_allowed_values v = true ↔ ∀ al, p.allowed_values = some al → v ∈ al := by
  rcases hal : p.allowed_values with _ | al <;>
    simp [Parameter.check_allowed_values, hal]

theorem set_next_value_ok_iff {T : Type} [LinearOrder T] [DecidableEq T]
    (p q : Parameter T) (v : T) :
    p.set_next_value v = Except.ok q ↔
      p.check_limits v = true ∧ p.check_allowed_values v = true ∧
      q = { p with next_value := v } := by
  unfold Parameter.set_next_value
  rcases hcl : p.check_limits v <;> rcases hca : p.check_allowed_values v <;>
    simp [hcl, hca, eq_comm]

/-- Claim C8: `set_next_value` with a value below a present `min_value`,
above a present `max_value`, or outside a present allowed set fails (the
Rust panic, modelled as `Except.error`) and produces no updated
parameter — `next_value` cannot change; and whenever `set_next_value v`
succeeds, the result stages exactly `v`, so a following `update_value`
commits `current_value` to exactly `v`. -/
theorem parameter_set_next_value_contract (T : Type) [LinearOrder T] [DecidableEq T] :
    (∀ (p : Parameter T) (v : T),
       ((∃ mn, p.min_value = some mn ∧ v < mn) ∨
        (∃ mx, p.max_value = some mx ∧ mx < v) ∨
        (∃ al, p.allowed_values = some al ∧ v ∉ al)) →
       ∀ q, p.set_next_value v ≠ Except.ok q) ∧
    (∀ (p q : Parameter T) (v : T),
       p.set_next_value v = Except.ok q →
       q = { p with next_value := v } ∧ q.next_value = v ∧
       q.update_value.current_value = v) := by
  constructor
  · intro p v hviol q hok
    rcases (set_next_value_ok_iff p q v).mp hok with ⟨hcl, hca, _⟩
    rcases hviol with ⟨mn, hmn, hlt⟩ | ⟨mx, hmx, hlt⟩ | ⟨al, hal, hnm⟩
    · exact ((check_limits_true_iff p v).mp hcl).1 mn hmn hlt
    · exact ((check_limits_true_iff p v).mp hcl).2 mx hmx hlt
    · exact hnm (((check_allowed_true_iff p v).mp hca) al hal)
  · intro p q v hok
    rcases (set_next_value_ok_iff p q v).mp hok with ⟨_, _, hq⟩
    subst hq
    exact ⟨rfl, rfl, rfl⟩

/-- The concrete parameter used by the C8 and C9 witnesses: current
value 1, bounds [0, 10], no allowed set. -/
def pw : Parameter Int := Parameter.new "p" "d" 1 (some 0) (some 10) none

/-- `pw` with value 5 staged. -/
def pw5 : Parameter Int := { pw with next_value := 5 }

/-- Witness for C8: setting 20 (above `max_value` 10) on `pw` cannot
succeed; setting 5 succeeds with exactly 5 staged, and `update_value`
then commits exactly 5. -/
theorem parameter_set_next_value_contract_check :
    ((∃ mn, pw.min_value = some mn ∧ (20 : Int) < mn) ∨
     (∃ mx, pw.max_value = some mx ∧ mx < (20 : Int)) ∨
     (∃ al, pw.allowed_values = some al ∧ (20 : Int) ∉ al)) ∧
    pw.set_next_value 20 ≠ Except.ok pw ∧
    pw.set_next_value 5 = Except.ok pw5 ∧
    (pw5 = { pw with next_value := 5 } ∧ pw5.next_value = 5 ∧
     pw5.update_value.current_value = 5) :=
  ⟨Or.inr (Or.inl ⟨10, rfl, by decide⟩),
   (parameter_set_next_value_contract Int).1 pw 20 (Or.inr (Or.inl ⟨10, rfl, by decide⟩)) pw,
   rfl,
   (parameter_set_next_value_contract Int).2 pw pw5 5 rfl⟩

/-- Claim C9: `Parameter::new` validates nothing: the constructed
parameter holds `current_value = v` and `next_value = v` for every `v`,
bounds and allowed set — even when `v` violates them, in which case
`set_next_value` would reject the very value the parameter already
holds. -/
theorem parameter_new_unchecked (T : Type) [LinearOrder T] [DecidableEq T] :
    (∀ (name description : String) (v : T) (mn mx : Option T) (al : Option (List T)),
       (Parameter.new name description v mn mx al).current_value = v ∧
       (Parameter.new name description v mn mx al).next_value = v) ∧
    (∀ (name description : String) (v : T) (mn mx : Option T) (al : Option (List T)),
       ((Parameter.new name description v mn mx al).check_limits v = false ∨
        (Parameter.new name description v mn mx al).check_allowed_values v = false) →
       ∀ q, (Parameter.new name description v mn mx al).set_next_value v ≠ Except.ok q) := by
  refine ⟨fun name description v mn mx al => ⟨rfl, rfl⟩,
          fun name description v mn mx al hviol q hok => ?_⟩
  rcases (set_next_value_ok_iff _ q v).mp hok with ⟨hcl, hca, _⟩
  rcases hviol with h | h
  · rw [hcl] at h; exact Bool.noConfusion h
  · rw [hca] at h; exact Bool.noConfusion h

/-- Witness for C9: constructing with value 20 against bounds [0, 10]
succeeds and holds 20 in both `current_value` and `next_value`, while
`set_next_value 20` on the same parameter cannot succeed. -/
theorem parameter_new_unchecked_check :
    ((Parameter.new "p" "d" (20 : Int) (some 0) (some 10) none).check_limits 20 = false ∨
     (Parameter.new "p" "d" (20 : Int) (some 0) (some 10) none).check_allowed_values 20
       = false) ∧
    ((Parameter.new "p" "d" (20 : Int) (some 0) (some 10) none).current_value = 20 ∧
     (Parameter.new "p" "d" (20 : Int) (some 0) (some 10) none).next_value = 20) ∧
    (Parameter.new "p" "d" (20 : Int) (some 0) (some 10) none).set_next_value 20 ≠
      Except.ok (Parameter.new "p" "d" (20 : Int) (some 0) (some 10) none) :=
  ⟨Or.inl (by decide),
   (parameter_new_unchecked Int).1 "p" "d" 20 (some 0) (some 10) none,
   (parameter_new_unchecked Int).2 "p" "d" 20 (some 0) (some 10) none
     (Or.inl (by decide)) (Parameter.new "p" "d" (20 : Int) (some 0) (some 10) none)⟩

end ProcessorEngine
